import Mathlib

/-!
Shallow embedding of the Svelte speech-recognition page
(src/routes/+page.svelte) and verification of the spec's claims about it.

The page keeps six module-level mutable variables
(recognition, interimTranscript, finalTranscript, isRecording,
isButtonDisabled, errorMessage); we package them in `AppState` and embed
every handler as a pure state transformer.  Calls issued to the browser
recognition handle (recognition?.start() / recognition?.stop()) are made
explicit as a list of `CapRequest` values returned alongside the new state.
-/

/-- Configuration carried by a browser SpeechRecognition instance, as set by
createSpeechRecognition (continuous, interimResults, lang, maxAlternatives). -/
structure SpeechRecognition where
  continuous : Bool
  interimResults : Bool
  lang : String
  maxAlternatives : Nat
deriving DecidableEq

/-- One element of event.results.  The source reads results[i][0].transcript
(the first alternative; maxAlternatives is 1) and results[i].isFinal, so we
record exactly the first alternative's transcript and the isFinal flag. -/
structure SpeechRecognitionResult where
  transcript : String
  isFinal : Bool
deriving DecidableEq

/-- A SpeechRecognitionEvent: `results` is the session's full result list
indexed from 0, and `resultIndex` is the first index delivered (the loop in
handleRecognitionResult runs from resultIndex to results.length - 1). -/
structure SpeechRecognitionEvent where
  resultIndex : Nat
  results : List SpeechRecognitionResult
deriving DecidableEq

/-- A call issued to the recognition handle. -/
inductive CapRequest where
  | start
  | stop
deriving DecidableEq

/-- The six module-level mutable variables of the page. -/
structure AppState where
  recognition : Option SpeechRecognition
  interimTranscript : String
  finalTranscript : String
  isRecording : Bool
  isButtonDisabled : Bool
  errorMessage : String
deriving DecidableEq

/-- createSpeechRecognition: returns null when the browser lacks the API,
otherwise an instance configured with continuous = true,
interimResults = true, lang = ja-JP, maxAlternatives = 1. -/
def createSpeechRecognition (supported : Bool) : Option SpeechRecognition :=
  if supported then
    some { continuous := true, interimResults := true, lang := "ja-JP", maxAlternatives := 1 }
  else
    none

/-- The state right after onMount ran: all strings empty, both flags false,
and recognition set to whatever createSpeechRecognition returned. -/
def initState (supported : Bool) : AppState :=
  { recognition := createSpeechRecognition supported
    interimTranscript := ""
    finalTranscript := ""
    isRecording := false
    isButtonDisabled := false
    errorMessage := "" }

/-- handleRecognitionResult: iterate i from event.resultIndex to the end of
event.results; final chunks are appended to finalTranscript, non-final
chunks are appended to the local `interim` buffer, which then fully
replaces interimTranscript. -/
def handleRecognitionResult (s : AppState) (event : SpeechRecognitionEvent) : AppState :=
  let r := (event.results.drop event.resultIndex).foldl
    (fun acc chunk =>
      if chunk.isFinal then (acc.1 ++ chunk.transcript, acc.2)
      else (acc.1, acc.2 ++ chunk.transcript))
    (s.finalTranscript, "")
  { s with finalTranscript := r.1, interimTranscript := r.2 }

/-- handleRecognitionError: set errorMessage (a dedicated message for
no-speech, otherwise a generic message carrying the raw error code), stop
recording, re-enable the button.  It touches no other variable. -/
def handleRecognitionError (s : AppState) (error : String) : AppState :=
  { s with
    errorMessage :=
      if error = "no-speech" then "音声が検出されませんでした。もう一度お試しください。"
      else "エラーが発生しました: " ++ error
    isRecording := false
    isButtonDisabled := false }

/-- The onstart callback registered in onMount. -/
def handleRecognitionStart (s : AppState) : AppState :=
  { s with isRecording := true, isButtonDisabled := false }

/-- The onend callback registered in onMount. -/
def handleRecognitionEnd (s : AppState) : AppState :=
  { s with isRecording := false, isButtonDisabled := false }

/-- startRecognition: clear both transcripts and the error message, disable
the button, and call recognition?.start() (a no-op when recognition is
null). -/
def startRecognition (s : AppState) : AppState × List CapRequest :=
  ({ s with
      interimTranscript := ""
      finalTranscript := ""
      errorMessage := ""
      isButtonDisabled := true },
   match s.recognition with
   | some _ => [CapRequest.start]
   | none => [])

/-- stopRecognition: disable the button and call recognition?.stop()
(a no-op when recognition is null). -/
def stopRecognition (s : AppState) : AppState × List CapRequest :=
  ({ s with isButtonDisabled := true },
   match s.recognition with
   | some _ => [CapRequest.stop]
   | none => [])

/-- handleButtonClick: stop while recording, otherwise start. -/
def handleButtonClick (s : AppState) : AppState × List CapRequest :=
  if s.isRecording then stopRecognition s else startRecognition s

/-- The events that can reach the page after onMount: a user click, or one
of the four callbacks of the recognition handle. -/
inductive Event where
  | click
  | result (e : SpeechRecognitionEvent)
  | error (err : String)
  | started
  | ended
deriving DecidableEq

/-- One step of the page's event loop. -/
def step (s : AppState) : Event → AppState
  | Event.click => (handleButtonClick s).1
  | Event.result e => handleRecognitionResult s e
  | Event.error err => handleRecognitionError s err
  | Event.started => handleRecognitionStart s
  | Event.ended => handleRecognitionEnd s

/-- Run a sequence of events. -/
def run (s : AppState) (es : List Event) : AppState :=
  es.foldl step s

/-- An event is possible in a state: user clicks always are; the four
recognition callbacks can only fire when a recognition handle exists
(onMount returns early without registering them when it is null, and a null
handle emits nothing). -/
def validEvent (s : AppState) : Event → Bool
  | Event.click => true
  | _ => s.recognition.isSome

/-- A whole event sequence is possible from a state. -/
def validTrace : AppState → List Event → Bool
  | _, [] => true
  | s, e :: es => validEvent s e && validTrace (step s e) es

/-- Feed a list of result batches to handleRecognitionResult. -/
def processBatches (s : AppState) (bs : List SpeechRecognitionEvent) : AppState :=
  bs.foldl handleRecognitionResult s

/-- Concatenation of a list of strings, in order. -/
def strConcat : List String → String
  | [] => ""
  | t :: ts => t ++ strConcat ts

/-- Texts of the final chunks of a chunk list, in order. -/
def finalTexts (l : List SpeechRecognitionResult) : List String :=
  (l.filter (fun c => c.isFinal)).map (fun c => c.transcript)

/-- Texts of the non-final chunks of a chunk list, in order. -/
def interimTexts (l : List SpeechRecognitionResult) : List String :=
  (l.filter (fun c => !c.isFinal)).map (fun c => c.transcript)

/-- The final chunks a batch delivers, paired with their absolute indices
(the batch covers indices from resultIndex on). -/
def finalChunksIndexed (e : SpeechRecognitionEvent) : List (Nat × SpeechRecognitionResult) :=
  ((e.results.enum).drop e.resultIndex).filter (fun p => p.2.isFinal)

/-- All final chunks delivered by a sequence of batches, with indices, in
delivery order. -/
def allFinalChunks (bs : List SpeechRecognitionEvent) : List (Nat × SpeechRecognitionResult) :=
  (bs.map finalChunksIndexed).flatten

/-! ## Helper lemmas about the aggregation loop -/

/-- The loop body of handleRecognitionResult, run over any chunk list,
appends the final texts to the first accumulator and the non-final texts to
the second. -/
theorem foldl_chunks_eq (l : List SpeechRecognitionResult) (f0 i0 : String) :
    l.foldl
      (fun acc chunk =>
        if chunk.isFinal then (acc.1 ++ chunk.transcript, acc.2)
        else (acc.1, acc.2 ++ chunk.transcript))
      (f0, i0)
    = (f0 ++ strConcat (finalTexts l), i0 ++ strConcat (interimTexts l)) := by
  induction l generalizing f0 i0 with
  | nil => simp [finalTexts, interimTexts, strConcat]
  | cons c cs ih =>
    by_cases h : c.isFinal = true
    · simp [h, ih, finalTexts, interimTexts, strConcat, String.append_assoc]
    · simp [h, ih, finalTexts, interimTexts, strConcat, String.append_assoc]

/-- Effect of handleRecognitionResult on finalTranscript: the final texts of
the delivered range are appended. -/
theorem hrr_final (s : AppState) (e : SpeechRecognitionEvent) :
    (handleRecognitionResult s e).finalTranscript
      = s.finalTranscript ++ strConcat (finalTexts (e.results.drop e.resultIndex)) := by
  simp [handleRecognitionResult, foldl_chunks_eq]

/-- Effect of handleRecognitionResult on interimTranscript: it is replaced
by the non-final texts of the delivered range. -/
theorem hrr_interim (s : AppState) (e : SpeechRecognitionEvent) :
    (handleRecognitionResult s e).interimTranscript
      = strConcat (interimTexts (e.results.drop e.resultIndex)) := by
  simp [handleRecognitionResult, foldl_chunks_eq]

/-- strConcat distributes over list append. -/
theorem strConcat_append (l1 l2 : List String) :
    strConcat (l1 ++ l2) = strConcat l1 ++ strConcat l2 := by
  induction l1 with
  | nil => simp [strConcat]
  | cons a as ih => simp [strConcat, ih, String.append_assoc]

/-- Filtering and projecting on the second components of an indexed list is
the same as dropping the indices first. -/
theorem filter_map_on_snd (L : List (Nat × SpeechRecognitionResult)) :
    ((L.filter (fun q => q.2.isFinal)).map (fun q => q.2.transcript))
      = finalTexts (L.map Prod.snd) := by
  induction L with
  | nil => simp [finalTexts]
  | cons a as ih =>
    by_cases h : a.2.isFinal = true
    · simp [finalTexts, h] at ih ⊢
      exact ih
    · simp [finalTexts, h] at ih ⊢
      exact ih

/-- The texts of a batch's indexed final chunks are the final texts of its
delivered range. -/
theorem finalChunksIndexed_texts (e : SpeechRecognitionEvent) :
    (finalChunksIndexed e).map (fun p => p.2.transcript)
      = finalTexts (e.results.drop e.resultIndex) := by
  unfold finalChunksIndexed
  rw [filter_map_on_snd, List.map_drop, List.enum_eq_enumFrom, List.enumFrom_map_snd]

/-- Running a batch sequence appends, in delivery order, the texts of all
final chunks of all batches. -/
theorem processBatches_final (bs : List SpeechRecognitionEvent) :
    ∀ (s : AppState),
      (processBatches s bs).finalTranscript
        = s.finalTranscript ++ strConcat ((allFinalChunks bs).map (fun p => p.2.transcript)) := by
  induction bs with
  | nil => intro s; simp [processBatches, allFinalChunks, strConcat]
  | cons b rest ih =>
    intro s
    show (processBatches (handleRecognitionResult s b) rest).finalTranscript = _
    rw [ih, hrr_final, String.append_assoc]
    congr 1
    rw [← finalChunksIndexed_texts]
    simp [allFinalChunks, strConcat_append]

/-! ## Helper lemmas about the event loop -/

/-- When no recognition handle exists, the only possible event is a user
click. -/
theorem valid_of_none (t : AppState) (ev : Event) (h : t.recognition = none)
    (hv : validEvent t ev = true) : ev = Event.click := by
  cases ev with
  | click => rfl
  | result e => simp [validEvent, h] at hv
  | error err => simp [validEvent, h] at hv
  | started => simp [validEvent, h] at hv
  | ended => simp [validEvent, h] at hv

/-- A click in a non-recording state runs startRecognition. -/
theorem click_not_recording (t : AppState) (h : t.isRecording = false) :
    step t Event.click
      = { t with
          interimTranscript := ""
          finalTranscript := ""
          errorMessage := ""
          isButtonDisabled := true } := by
  simp [step, handleButtonClick, h, startRecognition]

/-- A click never changes the recognition handle and always leaves the
button disabled. -/
theorem click_effects (t : AppState) :
    (step t Event.click).recognition = t.recognition
      ∧ (step t Event.click).isButtonDisabled = true := by
  by_cases h : t.isRecording = true
  · simp [step, handleButtonClick, h, stopRecognition]
  · simp [step, handleButtonClick, h, startRecognition]

/-- With no recognition handle, every possible trace keeps the page idle
and both transcripts and the error message empty. -/
theorem run_unsupported_invariant :
    ∀ (es : List Event) (t : AppState),
      t.recognition = none → t.isRecording = false → t.finalTranscript = "" →
      t.interimTranscript = "" → t.errorMessage = "" → validTrace t es = true →
      (run t es).isRecording = false ∧ (run t es).finalTranscript = ""
        ∧ (run t es).interimTranscript = "" ∧ (run t es).errorMessage = "" := by
  intro es
  induction es with
  | nil => intro t h1 h2 h3 h4 h5 hv; exact ⟨h2, h3, h4, h5⟩
  | cons ev evs ih =>
    intro t h1 h2 h3 h4 h5 hv
    simp only [validTrace, Bool.and_eq_true] at hv
    have hev : ev = Event.click := valid_of_none t ev h1 hv.1
    subst hev
    have hstep := click_not_recording t h2
    have hrun : run t (Event.click :: evs) = run (step t Event.click) evs := rfl
    rw [hrun]
    exact ih (step t Event.click)
      (by rw [hstep]; exact h1) (by rw [hstep]; exact h2)
      (by rw [hstep]) (by rw [hstep]) (by rw [hstep]) hv.2

/-- With no recognition handle, once the button is disabled every possible
trace keeps it disabled (no callback can ever re-enable it). -/
theorem run_button_stays_disabled :
    ∀ (es : List Event) (t : AppState),
      t.recognition = none → t.isButtonDisabled = true → validTrace t es = true →
      (run t es).isButtonDisabled = true := by
  intro es
  induction es with
  | nil => intro t _ hb _; exact hb
  | cons ev evs ih =>
    intro t h1 hb hv
    simp only [validTrace, Bool.and_eq_true] at hv
    have hev : ev = Event.click := valid_of_none t ev h1 hv.1
    subst hev
    have hrun : run t (Event.click :: evs) = run (step t Event.click) evs := rfl
    rw [hrun]
    exact ih (step t Event.click)
      (by rw [(click_effects t).1]; exact h1) (click_effects t).2 hv.2

/-! ## Claims -/

/-- Claim C1: after handleRecognitionResult processes a batch,
interimTranscript equals exactly the concatenation, in ascending index
order starting at the batch's resultIndex, of the non-final chunks' texts
of that batch — independent of the prior interimTranscript (full
replacement, not append); in particular a batch with no non-final chunks
leaves it empty (strConcat of the empty list). -/
theorem interim_full_replacement (s : AppState) (e : SpeechRecognitionEvent) :
    (handleRecognitionResult s e).interimTranscript
      = strConcat (interimTexts (e.results.drop e.resultIndex)) :=
  hrr_interim s e

/-- Claim C2, counterexample: the aggregator keeps no record of finalized
indices.  From a fresh state, the batch with resultIndex 0 and a single
final chunk "a" at index 0 yields finalTranscript "a"; redelivering the
very same batch (startIndex 0 ≤ highest finalized index 0) appends the
text again, yielding "aa" — the already-finalized chunk is not skipped. -/
theorem finalized_chunk_redelivery_duplicates :
    (handleRecognitionResult (initState true)
        { resultIndex := 0, results := [{ transcript := "a", isFinal := true }] }).finalTranscript
      = "a"
    ∧ (handleRecognitionResult
        (handleRecognitionResult (initState true)
          { resultIndex := 0, results := [{ transcript := "a", isFinal := true }] })
        { resultIndex := 0, results := [{ transcript := "a", isFinal := true }] }).finalTranscript
      = "aa" := by
  exact ⟨rfl, rfl⟩

/-- Claim C2, amended: the only chunks a batch skips are those at indices
strictly below its resultIndex; every final chunk at or after resultIndex
has its text appended to finalTranscript, even at an index that was already
finalized (so redelivery of a finalized chunk inside the delivered range
duplicates its text). -/
theorem final_appends_every_chunk_from_resultIndex (s : AppState) (e : SpeechRecognitionEvent) :
    (handleRecognitionResult s e).finalTranscript
      = s.finalTranscript ++ strConcat (finalTexts (e.results.drop e.resultIndex)) :=
  hrr_final s e

/-- Claim C3: for a batch sequence whose final chunks carry strictly
increasing (hence non-overlapping) indices, processing from a reset
aggregator leaves finalTranscript equal to the concatenation, in index
order, of all final chunks' texts; moreover any single batch only ever
appends to finalTranscript, so its length never decreases. -/
theorem finalText_ordered_concat_and_append_only
    (bs : List SpeechRecognitionEvent)
    (_h : List.Chain' (fun p q => p.1 < q.1) (allFinalChunks bs))
    (s : AppState) (e : SpeechRecognitionEvent) :
    (processBatches (initState true) bs).finalTranscript
        = strConcat ((allFinalChunks bs).map (fun p => p.2.transcript))
      ∧ ∃ t, (handleRecognitionResult s e).finalTranscript = s.finalTranscript ++ t
          ∧ s.finalTranscript.length ≤ (handleRecognitionResult s e).finalTranscript.length := by
  refine ⟨?_, strConcat (finalTexts (e.results.drop e.resultIndex)), hrr_final s e, ?_⟩
  · rw [processBatches_final]
    simp [initState]
  · rw [hrr_final]
    simp

/-- Claim C3, witness: two batches finalizing "ab" at index 0 and "cd" at
index 1 satisfy the index hypothesis and produce finalTranscript "abcd". -/
theorem finalText_ordered_concat_and_append_only_witness :
    List.Chain' (fun p q => p.1 < q.1)
        (allFinalChunks
          [{ resultIndex := 0, results := [{ transcript := "ab", isFinal := true }] },
           { resultIndex := 1,
             results := [{ transcript := "ab", isFinal := true },
                         { transcript := "cd", isFinal := true }] }])
    ∧ ((processBatches (initState true)
          [{ resultIndex := 0, results := [{ transcript := "ab", isFinal := true }] },
           { resultIndex := 1,
             results := [{ transcript := "ab", isFinal := true },
                         { transcript := "cd", isFinal := true }] }]).finalTranscript
        = strConcat
            ((allFinalChunks
              [{ resultIndex := 0, results := [{ transcript := "ab", isFinal := true }] },
               { resultIndex := 1,
                 results := [{ transcript := "ab", isFinal := true },
                             { transcript := "cd", isFinal := true }] }]).map
              (fun p => p.2.transcript))
      ∧ ∃ t, (handleRecognitionResult (initState true)
              { resultIndex := 0,
                results := [{ transcript := "xy", isFinal := false }] }).finalTranscript
            = (initState true).finalTranscript ++ t
          ∧ (initState true).finalTranscript.length
            ≤ (handleRecognitionResult (initState true)
                { resultIndex := 0,
                  results := [{ transcript := "xy", isFinal := false }] }).finalTranscript.length) :=
  ⟨by simp [allFinalChunks, finalChunksIndexed, List.chain'_cons, List.enum],
   finalText_ordered_concat_and_append_only _
     (by simp [allFinalChunks, finalChunksIndexed, List.chain'_cons, List.enum]) (initState true)
     { resultIndex := 0, results := [{ transcript := "xy", isFinal := false }] }⟩

/-- Claim C4, counterexample: handleRecognitionError does not clear
interimTranscript.  Delivering a no-speech error to an active state whose
interimTranscript is "x" leaves it "x", not the empty string the claim
requires. -/
theorem error_does_not_clear_interim :
    (handleRecognitionError
        { recognition := createSpeechRecognition true
          interimTranscript := "x"
          finalTranscript := "ab"
          isRecording := true
          isButtonDisabled := false
          errorMessage := "" } "no-speech").interimTranscript = "x"
    ∧ ("x" : String) ≠ "" := by
  exact ⟨rfl, by decide⟩

/-- Claim C4, amended: every error event ends the session (isRecording
becomes false), sets errorMessage (the dedicated recoverable message for
"no-speech", otherwise a message carrying the raw error code), and
preserves finalTranscript exactly; interimTranscript, however, is NOT
cleared — it too is preserved exactly as it was before the error. -/
theorem error_terminal_preserves_transcripts (s : AppState) (error : String) :
    (handleRecognitionError s error).isRecording = false
    ∧ (handleRecognitionError s error).errorMessage
        = (if error = "no-speech" then "音声が検出されませんでした。もう一度お試しください。"
           else "エラーが発生しました: " ++ error)
    ∧ (handleRecognitionError s error).finalTranscript = s.finalTranscript
    ∧ (handleRecognitionError s error).interimTranscript = s.interimTranscript :=
  ⟨rfl, rfl, rfl, rfl⟩

/-- Claim C5, counterexample: when createSpeechRecognition returned null, a
start request (button click while idle) leaves errorMessage equal to the
empty string — no Unsupported error is ever stored (the condition is only
logged to the console in onMount) — while the state indeed stays idle and
no request reaches a capability. -/
theorem unsupported_start_sets_no_error :
    (handleButtonClick (initState false)).1.errorMessage = ""
    ∧ (handleButtonClick (initState false)).1.isRecording = false
    ∧ (handleButtonClick (initState false)).2 = [] := by
  exact ⟨rfl, rfl, rfl⟩

/-- Claim C5, amended: when the capability is unavailable (recognition is
null), every possible event sequence keeps the page idle (isRecording
false) and finalTranscript and interimTranscript empty — no ResultBatch is
ever processed — but lastError is never set either: errorMessage stays
empty for the lifetime of the program. -/
theorem unsupported_stays_idle_no_results (es : List Event)
    (h : validTrace (initState false) es = true) :
    (run (initState false) es).isRecording = false
    ∧ (run (initState false) es).finalTranscript = ""
    ∧ (run (initState false) es).interimTranscript = ""
    ∧ (run (initState false) es).errorMessage = "" :=
  run_unsupported_invariant es (initState false) rfl rfl rfl rfl rfl h

/-- Claim C5, witness: two button clicks form a possible trace on the
unsupported page. -/
theorem unsupported_stays_idle_no_results_witness :
    validTrace (initState false) [Event.click, Event.click] = true
    ∧ ((run (initState false) [Event.click, Event.click]).isRecording = false
      ∧ (run (initState false) [Event.click, Event.click]).finalTranscript = ""
      ∧ (run (initState false) [Event.click, Event.click]).interimTranscript = ""
      ∧ (run (initState false) [Event.click, Event.click]).errorMessage = "") :=
  ⟨by decide, unsupported_stays_idle_no_results [Event.click, Event.click] (by decide)⟩

/-- Claim C6: a button click while not recording runs startRecognition,
which clears errorMessage, finalTranscript and interimTranscript before the
activation request (issued exactly when a recognition handle exists) — in
particular the previous session's error is always cleared. -/
theorem start_clears_error_and_transcripts (s : AppState) (h : s.isRecording = false) :
    (handleButtonClick s).1.errorMessage = ""
    ∧ (handleButtonClick s).1.finalTranscript = ""
    ∧ (handleButtonClick s).1.interimTranscript = ""
    ∧ (handleButtonClick s).2
        = (if s.recognition.isSome then [CapRequest.start] else []) := by
  cases hr : s.recognition <;>
    simp [handleButtonClick, h, startRecognition, hr]

/-- Claim C6, witness: the freshly mounted supported page is not recording;
clicking clears the three strings and issues the activation request. -/
theorem start_clears_error_and_transcripts_witness :
    (initState true).isRecording = false
    ∧ ((handleButtonClick (initState true)).1.errorMessage = ""
      ∧ (handleButtonClick (initState true)).1.finalTranscript = ""
      ∧ (handleButtonClick (initState true)).1.interimTranscript = ""
      ∧ (handleButtonClick (initState true)).2
          = (if (initState true).recognition.isSome then [CapRequest.start] else [])) :=
  ⟨by decide, start_clears_error_and_transcripts (initState true) (by decide)⟩

/-- Claim C7: a button click while recording never reaches
startRecognition: isRecording, finalTranscript, interimTranscript and
errorMessage are all unchanged and no activation request is issued (the
click is routed to stopRecognition, which only disables the button and
requests deactivation). -/
theorem start_while_active_is_noop (s : AppState) (h : s.isRecording = true) :
    (handleButtonClick s).1.isRecording = s.isRecording
    ∧ (handleButtonClick s).1.finalTranscript = s.finalTranscript
    ∧ (handleButtonClick s).1.interimTranscript = s.interimTranscript
    ∧ (handleButtonClick s).1.errorMessage = s.errorMessage
    ∧ CapRequest.start ∉ (handleButtonClick s).2 := by
  cases hr : s.recognition <;>
    simp [handleButtonClick, h, stopRecognition, hr]

/-- Claim C7, witness: a recording state with non-trivial transcripts and
error text is untouched by the click and no start request is issued. -/
theorem start_while_active_is_noop_witness :
    ({ recognition := createSpeechRecognition true
       interimTranscript := "i"
       finalTranscript := "f"
       isRecording := true
       isButtonDisabled := false
       errorMessage := "e" } : AppState).isRecording = true
    ∧ ((handleButtonClick
          { recognition := createSpeechRecognition true
            interimTranscript := "i"
            finalTranscript := "f"
            isRecording := true
            isButtonDisabled := false
            errorMessage := "e" }).1.isRecording
        = ({ recognition := createSpeechRecognition true
             interimTranscript := "i"
             finalTranscript := "f"
             isRecording := true
             isButtonDisabled := false
             errorMessage := "e" } : AppState).isRecording
      ∧ (handleButtonClick
          { recognition := createSpeechRecognition true
            interimTranscript := "i"
            finalTranscript := "f"
            isRecording := true
            isButtonDisabled := false
            errorMessage := "e" }).1.finalTranscript
        = ({ recognition := createSpeechRecognition true
             interimTranscript := "i"
             finalTranscript := "f"
             isRecording := true
             isButtonDisabled := false
             errorMessage := "e" } : AppState).finalTranscript
      ∧ (handleButtonClick
          { recognition := createSpeechRecognition true
            interimTranscript := "i"
            finalTranscript := "f"
            isRecording := true
            isButtonDisabled := false
            errorMessage := "e" }).1.interimTranscript
        = ({ recognition := createSpeechRecognition true
             interimTranscript := "i"
             finalTranscript := "f"
             isRecording := true
             isButtonDisabled := false
             errorMessage := "e" } : AppState).interimTranscript
      ∧ (handleButtonClick
          { recognition := createSpeechRecognition true
            interimTranscript := "i"
            finalTranscript := "f"
            isRecording := true
            isButtonDisabled := false
            errorMessage := "e" }).1.errorMessage
        = ({ recognition := createSpeechRecognition true
             interimTranscript := "i"
             finalTranscript := "f"
             isRecording := true
             isButtonDisabled := false
             errorMessage := "e" } : AppState).errorMessage
      ∧ CapRequest.start ∉
          (handleButtonClick
            { recognition := createSpeechRecognition true
              interimTranscript := "i"
              finalTranscript := "f"
              isRecording := true
              isButtonDisabled := false
              errorMessage := "e" }).2) :=
  ⟨by decide,
   start_while_active_is_noop
     { recognition := createSpeechRecognition true
       interimTranscript := "i"
       finalTranscript := "f"
       isRecording := true
       isButtonDisabled := false
       errorMessage := "e" } (by decide)⟩

/-- Claim C8, counterexample: stopRecognition has no idle guard of its own.
Invoked on the freshly mounted supported page (isRecording = false, button
enabled), it still flips the button-disabled flag to true and issues a
deactivation request — so a stop request while idle is not free of
observable effects. -/
theorem stop_while_idle_disables_button :
    (initState true).isRecording = false
    ∧ (initState true).isButtonDisabled = false
    ∧ (stopRecognition (initState true)).1.isButtonDisabled = true
    ∧ (stopRecognition (initState true)).2 = [CapRequest.stop] := by
  exact ⟨rfl, rfl, rfl, rfl⟩

/-- Claim C8, amended: stopRecognition, in every state, leaves isRecording,
finalTranscript, interimTranscript and errorMessage untouched, but always
sets the button-disabled flag to true and issues a deactivation request
whenever a recognition handle exists — the idle guard lives only in
handleButtonClick, which routes a click while idle to startRecognition
instead, so stopRecognition is never invoked while idle through the UI. -/
theorem stop_frame_and_requests (s : AppState) :
    (stopRecognition s).1 = { s with isButtonDisabled := true }
    ∧ (stopRecognition s).2
        = (if s.recognition.isSome then [CapRequest.stop] else []) := by
  cases hr : s.recognition <;> simp [stopRecognition, hr]

/-- Claim C9: handleRecognitionResult mutates only finalTranscript and
interimTranscript — errorMessage, isRecording, isButtonDisabled (and the
recognition handle) keep the values they had before the call, for every
state and every event. -/
theorem result_batch_frame (s : AppState) (e : SpeechRecognitionEvent) :
    (handleRecognitionResult s e).errorMessage = s.errorMessage
    ∧ (handleRecognitionResult s e).isRecording = s.isRecording
    ∧ (handleRecognitionResult s e).isButtonDisabled = s.isButtonDisabled
    ∧ (handleRecognitionResult s e).recognition = s.recognition :=
  ⟨rfl, rfl, rfl, rfl⟩

/-- Claim C10: with a null recognition handle, startRecognition still
clears the two transcripts and the error message and sets the
button-disabled flag, while issuing no activation request; and since no
onstart or onend callback can ever fire without a handle, every possible
subsequent event sequence keeps the button disabled. -/
theorem null_handle_start_button_stays_disabled (s : AppState) (es : List Event)
    (h1 : s.recognition = none)
    (h2 : validTrace (startRecognition s).1 es = true) :
    (startRecognition s).1.finalTranscript = ""
    ∧ (startRecognition s).1.interimTranscript = ""
    ∧ (startRecognition s).1.errorMessage = ""
    ∧ (startRecognition s).1.isButtonDisabled = true
    ∧ (startRecognition s).2 = []
    ∧ (run (startRecognition s).1 es).isButtonDisabled = true := by
  refine ⟨rfl, rfl, rfl, rfl, ?_, ?_⟩
  · simp [startRecognition, h1]
  · exact run_button_stays_disabled es (startRecognition s).1 (by simp [startRecognition, h1]) rfl h2

/-- Claim C10, witness: on the unsupported page, clicking start disables
the button, and a further click (the only possible event) leaves it
disabled. -/
theorem null_handle_start_button_stays_disabled_witness :
    (initState false).recognition = none
    ∧ validTrace (startRecognition (initState false)).1 [Event.click] = true
    ∧ ((startRecognition (initState false)).1.finalTranscript = ""
      ∧ (startRecognition (initState false)).1.interimTranscript = ""
      ∧ (startRecognition (initState false)).1.errorMessage = ""
      ∧ (startRecognition (initState false)).1.isButtonDisabled = true
      ∧ (startRecognition (initState false)).2 = []
      ∧ (run (startRecognition (initState false)).1 [Event.click]).isButtonDisabled = true) :=
  ⟨by decide, by decide,
   null_handle_start_button_stays_disabled (initState false) [Event.click]
     (by decide) (by decide)⟩
